import Mathlib

/-!
Shallow embedding of the loan-application lifecycle core of the
`timpamungkasudemy/jules-loan-graphql` repository (Go), namely:

* the pure validation helpers of `graphqlhandler/resolvers.go`
  (`isValidDate`, `isValidEmail`, `validateAddressInput`,
  `validateCustomerInput`, `validateCollateralInput`,
  `validateProposedLoanInput`);
* the persistence gateway of `db/db.go`
  (`CreateLoanApplicationDraft`, `GetLoanApplication`,
  `SubmitLoanApplication`, `CancelLoanApplication`), modelled against the
  two tables created by `db/migrations/000001_create_initial_tables.up.sql`;
* the resolver methods of `graphqlhandler/resolvers.go` that orchestrate
  validation and persistence.

Modelling conventions:

* The database is a pair of row lists (`customers`, `loans`).  The SQL
  statements of `db.go` are interpreted over this state: `INSERT` appends a
  row after checking the constraints declared by the migration (primary
  keys, the `UNIQUE` constraint on `id_number`, the foreign key
  `loans.customer_id REFERENCES customers(id)` and the
  `collateral_categories` enum); a conditional `UPDATE` maps the update
  over all rows matched by its `WHERE` clause and reports the affected row
  count; the `SELECT ... JOIN` of `GetLoanApplication` takes the first loan
  row matched by its `WHERE` clause joined with its customer row.  Column
  references are checked against the migration's schema: the `SELECT` of
  `GetLoanApplication` names `l.status`, a column the `loans` table does
  not have (it has `loan_status`, the name this same file's `INSERT` and
  `UPDATE` statements use), so that query is rejected by the storage
  engine with an undefined-column error on every call.
* `time.Now()` / `NOW()` and `uuid.New()` are external inputs, so the
  embedded operations take the current timestamp (a `Nat` tick) and the
  generated identifiers as explicit parameters; `time.Now().Year()` used by
  the collateral validator is likewise a `currentYear` parameter.
* Storage-engine faults (connectivity failures of `Begin`/`Exec`/`Commit`/
  `QueryRow`) are external nondeterminism, passed in as `Option String`
  parameters (`none` = the call reaches the storage engine successfully,
  `some e` = the storage engine fails with message `e`).
* Go `float64` amounts are modelled by `Rat` (every finite float is a
  rational and the code only compares and copies amounts); Go `len` on
  strings (a byte count) is modelled by `String.utf8ByteSize`; the
  anchored regular expressions of the validators are unfolded into
  executable character-class predicates.
* Fallible Go functions returning `(T, error)` become `Except String T`;
  GraphQL resolvers returning `(interface{}, error)` become a value paired
  with an optional error message.
-/

namespace LoanGraphql

/-! ## Data model (model/ types used by db.go and resolvers.go) -/

/-- `model.AddressInput` / `graphqlhandler.AddressData`. -/
structure AddressInput where
  street : String
  city : String
  zipcode : String
  deriving DecidableEq, Repr

/-- `model.CustomerInput`: the validated customer section. -/
structure CustomerInput where
  fullName : String
  dateOfBirth : String
  idNumber : String
  email : String
  phone : String
  address : AddressInput
  deriving DecidableEq, Repr

/-- `model.ProposedLoanInput`. -/
structure ProposedLoanInput where
  tenure : Int
  amount : Rat
  deriving DecidableEq, Repr

/-- `model.CollateralInput`. -/
structure CollateralInput where
  category : String
  brand : String
  variant : String
  manufacturingYear : Int
  isDocumentComplete : Bool
  deriving DecidableEq, Repr

/-- A row of the `customers` table (see the migration). -/
structure CustomerRow where
  id : String
  fullName : String
  dateOfBirth : String
  idNumber : String
  email : String
  phone : String
  street : String
  city : String
  zipcode : String
  createdBy : String
  updatedBy : String
  createdAt : Nat
  updatedAt : Nat
  deleted : Bool
  deletedAt : Option Nat
  deriving DecidableEq, Repr

/-- A row of the `loans` table (see the migration). -/
structure LoanRow where
  id : String
  customerId : String
  tenure : Int
  amount : Rat
  loanStatus : String
  collateralCategory : String
  collateralBrand : String
  collateralVariant : String
  collateralManufacturingYear : Int
  collateralIsDocumentComplete : Bool
  createdBy : String
  updatedBy : String
  createdAt : Nat
  updatedAt : Nat
  deleted : Bool
  deletedAt : Option Nat
  deriving DecidableEq, Repr

/-- The durable storage state: the two tables of the migration. -/
structure DBState where
  customers : List CustomerRow
  loans : List LoanRow
  deriving DecidableEq, Repr

/-- `model.Customer` as embedded in the composed loan application. -/
structure Customer where
  id : String
  fullName : String
  dateOfBirth : String
  idNumber : String
  email : String
  phone : String
  address : AddressInput
  createdBy : String
  updatedBy : String
  createdAt : Nat
  updatedAt : Nat
  deleted : Bool
  deletedAt : Option Nat
  deriving DecidableEq, Repr

/-- `model.ProposedLoan`. -/
structure ProposedLoan where
  tenure : Int
  amount : Rat
  deriving DecidableEq, Repr

/-- `model.Collateral`. -/
structure Collateral where
  category : String
  brand : String
  variant : String
  manufacturingYear : Int
  isDocumentComplete : Bool
  deriving DecidableEq, Repr

/-- `model.LoanApplication`: the composed application returned by the
persistence gateway, embedding its customer. -/
structure LoanApplication where
  id : String
  customerId : String
  status : String
  proposedLoan : ProposedLoan
  collateral : Collateral
  createdBy : String
  updatedBy : String
  createdAt : Nat
  updatedAt : Nat
  deleted : Bool
  deletedAt : Option Nat
  customerData : Customer
  deriving DecidableEq, Repr

/-! ## Raw (untyped) GraphQL input

The resolvers receive `map[string]interface{}` arguments and use two-valued
type assertions; a missing key or a value of the wrong dynamic type yields
the zero value with `ok = false`.  Each raw section is therefore a record
of `Option`-typed fields (`none` = key absent or not of the asserted type).
-/

/-- Raw `address` map inside the customer section. -/
structure AddressRaw where
  street : Option String
  city : Option String
  zipcode : Option String
  deriving DecidableEq, Repr

/-- Raw `customer` section. -/
structure CustomerRaw where
  fullName : Option String
  dateOfBirth : Option String
  idNumber : Option String
  email : Option String
  phone : Option String
  address : Option AddressRaw
  deriving DecidableEq, Repr

/-- Raw `collateral` section. -/
structure CollateralRaw where
  category : Option String
  brand : Option String
  variant : Option String
  manufacturingYear : Option Int
  isDocumentComplete : Option Bool
  deriving DecidableEq, Repr

/-- Raw `proposed_loan` section. -/
structure ProposedLoanRaw where
  tenure : Option Int
  amount : Option Rat
  deriving DecidableEq, Repr

/-- The raw `data` argument of the create mutation. -/
structure RawData where
  proposedLoan : ProposedLoanRaw
  collateral : CollateralRaw
  customer : CustomerRaw
  deriving DecidableEq, Repr

/-! ## Validation helpers (resolvers.go) -/

/-- One character of the class `[a-zA-Z ]` of the `full_name` pattern. -/
def isNameChar (c : Char) : Bool :=
  c.isAlpha || c = ' '

/-- One character of the class `[0-9]` of the `phone` pattern. -/
def isPhoneChar (c : Char) : Bool :=
  c.isDigit

/-- `regexp.MustCompile("^[a-zA-Z ]\x7b3,100\x7d$").MatchString`. -/
def matchFullName (s : String) : Bool :=
  s.data.all isNameChar && 3 ≤ s.data.length && s.data.length ≤ 100

/-- `regexp.MustCompile("^[0-9]\x7b6,30\x7d$").MatchString`. -/
def matchPhone (s : String) : Bool :=
  s.data.all isPhoneChar && 6 ≤ s.data.length && s.data.length ≤ 30

/-- One character of the local-part class `[a-zA-Z0-9._%+-]` of the email
pattern. -/
def isEmailLocalChar (c : Char) : Bool :=
  c.isAlphanum || c = '.' || c = '_' || c = '%' || c = '+' || c = '-'

/-- One character of the domain class `[a-zA-Z0-9.-]` of the email
pattern. -/
def isEmailDomainChar (c : Char) : Bool :=
  c.isAlphanum || c = '.' || c = '-'

/-- Matcher for the domain part `[a-zA-Z0-9.-]+\.[a-zA-Z]\x7b2,\x7d$` of the
email pattern: the string must end in a run of at least two letters,
immediately preceded by a dot, preceded by at least one domain-class
character.  (Since the final letter run is forced to extend to the end of
the string, the dot used by the pattern is necessarily the last dot.) -/
def matchEmailDomain (d : String) : Bool :=
  let rev := d.data.reverse
  let tld := rev.takeWhile Char.isAlpha
  2 ≤ tld.length &&
    match rev.dropWhile Char.isAlpha with
    | '.' :: before => 1 ≤ before.length && before.all isEmailDomainChar
    | _ => false

/-- Split a character list on every occurrence of a separator. -/
def splitOnChar (sep : Char) : List Char → List (List Char)
  | [] => [[]]
  | c :: rest =>
    let r := splitOnChar sep rest
    if c = sep then [] :: r
    else
      match r with
      | [] => [[c]]
      | h :: t => (c :: h) :: t

/-- `regexp.MustCompile("^[a-zA-Z0-9._%+-]+@[a-zA-Z0-9.-]+\\.[a-zA-Z]\x7b2,\x7d$").MatchString`:
since no character class of the pattern contains `@`, a matching string
splits at its unique `@` into a non-empty local part and a domain. -/
def matchEmail (s : String) : Bool :=
  match splitOnChar '@' s.data with
  | [loc, domain] => 1 ≤ loc.length && loc.all isEmailLocalChar
      && matchEmailDomain ⟨domain⟩
  | _ => false

/-- Leap-year rule of the proleptic Gregorian calendar used by Go
`time.Parse`. -/
def isLeapYear (y : Nat) : Bool :=
  (y % 4 = 0 && y % 100 ≠ 0) || y % 400 = 0

/-- Number of days of month `m` of year `y`. -/
def daysInMonth (y m : Nat) : Nat :=
  if m = 2 then (if isLeapYear y then 29 else 28)
  else if m = 4 || m = 6 || m = 9 || m = 11 then 30
  else 31

/-- Numeric value of a decimal digit character. -/
def digitVal (c : Char) : Nat :=
  c.toNat - '0'.toNat

/-- `time.Parse("2006-01-02", s)`: exactly `YYYY-MM-DD` with four-digit
year, two-digit month `01..12` and two-digit day in range for that month
and year; any other shape (or trailing text) is a parse error. -/
def parseDateYMD (s : String) : Option (Nat × Nat × Nat) :=
  match s.data with
  | [y1, y2, y3, y4, s1, m1, m2, s2, d1, d2] =>
    if y1.isDigit && y2.isDigit && y3.isDigit && y4.isDigit
        && s1 = '-' && m1.isDigit && m2.isDigit
        && s2 = '-' && d1.isDigit && d2.isDigit then
      let y := ((digitVal y1 * 10 + digitVal y2) * 10 + digitVal y3) * 10
        + digitVal y4
      let m := digitVal m1 * 10 + digitVal m2
      let d := digitVal d1 * 10 + digitVal d2
      if 1 ≤ m && m ≤ 12 && 1 ≤ d && d ≤ daysInMonth y m then
        some (y, m, d)
      else none
    else none
  | _ => none

/-- `isValidDate` of resolvers.go: the date parses as `YYYY-MM-DD`. -/
def isValidDate (dateStr : String) : Bool :=
  (parseDateYMD dateStr).isSome

/-- `isValidEmail` of resolvers.go: the empty email is accepted (email is
optional), otherwise the email pattern must match. -/
def isValidEmail (emailStr : String) : Bool :=
  if emailStr = "" then true else matchEmail emailStr

/-- `validateAddressInput` of resolvers.go. -/
def validateAddressInput (input : AddressRaw) : Except String Unit :=
  let street := input.street.getD ""
  let city := input.city.getD ""
  let zipcode := input.zipcode.getD ""
  if street.utf8ByteSize = 0 || street.utf8ByteSize > 200 then
    .error "street must be 1-200 characters"
  else if city.utf8ByteSize = 0 || city.utf8ByteSize > 100 then
    .error "city must be 1-100 characters"
  else if zipcode.utf8ByteSize < 3 || zipcode.utf8ByteSize > 10 then
    .error "zipcode must be 3-10 characters"
  else .ok ()

/-- `validateCustomerInput` of resolvers.go. -/
def validateCustomerInput (input : CustomerRaw) : Except String Unit :=
  let fullName := input.fullName.getD ""
  let dob := input.dateOfBirth.getD ""
  let idNumber := input.idNumber.getD ""
  let email := input.email.getD ""
  let phone := input.phone.getD ""
  if ¬ matchFullName fullName then
    .error "full_name must be 3-100 characters, alphabet and space only"
  else if ¬ isValidDate dob then
    .error "date_of_birth must be in YYYY-MM-DD format"
  else if idNumber.utf8ByteSize = 0 || idNumber.utf8ByteSize > 25 then
    .error "id_number must be 1-25 characters"
  else if email ≠ "" && ¬ isValidEmail email then
    .error "email is not valid"
  else if ¬ matchPhone phone then
    .error "phone must be 6-30 digits"
  else
    match input.address with
    | none => .error "address is required"
    | some addr =>
      match validateAddressInput addr with
      | .error e => .error ("invalid address: " ++ e)
      | .ok _ => .ok ()

/-- `validateCollateralInput` of resolvers.go; `currentYear` is
`time.Now().Year()`. -/
def validateCollateralInput (currentYear : Int) (input : CollateralRaw) :
    Except String Unit :=
  let brand := input.brand.getD ""
  let variant := input.variant.getD ""
  if brand.utf8ByteSize = 0 then
    .error "brand is required"
  else if variant.utf8ByteSize = 0 then
    .error "variant is required"
  else
    let yearErr :=
      "manufacturing_year must be between 2020 and " ++ toString currentYear
    match input.manufacturingYear with
    | none => .error yearErr
    | some mfgYear =>
      if mfgYear < 2020 || mfgYear > currentYear then .error yearErr
      else
        match input.isDocumentComplete with
        | none => .error "is_document_complete is required and must be a boolean"
        | some _ => .ok ()

/-- `validateProposedLoanInput` of resolvers.go. -/
def validateProposedLoanInput (input : ProposedLoanRaw) :
    Except String Unit :=
  let tenureErr := "tenure must be between 3 and 60, and divisible by 3"
  let amountErr := "amount must be between 100 and 50000"
  match input.tenure with
  | none => .error tenureErr
  | some tenure =>
    if tenure < 3 || tenure > 60 || tenure % 3 ≠ 0 then .error tenureErr
    else
      match input.amount with
      | none => .error amountErr
      | some amount =>
        if amount < 100 || amount > 50000 then .error amountErr
        else .ok ()

/-! ## Persistence gateway (db/db.go)

Column references of the SQL statements are resolved to row fields; the
statements' `WHERE` clauses become Boolean row predicates.
-/

/-- The `model.Customer` value assembled by `CreateLoanApplicationDraft`
before the first insert (`dbCustomer` in db.go). -/
def mkDbCustomer (customerIn : CustomerInput) (customerUUID createdBy : String)
    (now : Nat) : Customer :=
  { id := customerUUID
    fullName := customerIn.fullName
    dateOfBirth := customerIn.dateOfBirth
    idNumber := customerIn.idNumber
    email := customerIn.email
    phone := customerIn.phone
    address :=
      { street := customerIn.address.street
        city := customerIn.address.city
        zipcode := customerIn.address.zipcode }
    createdBy := createdBy
    updatedBy := createdBy
    createdAt := now
    updatedAt := now
    deleted := false
    deletedAt := none }

/-- The `customers` row written by the first `INSERT` of
`CreateLoanApplicationDraft` (the columns of its `VALUES` list). -/
def customerRowOf (c : Customer) : CustomerRow :=
  { id := c.id
    fullName := c.fullName
    dateOfBirth := c.dateOfBirth
    idNumber := c.idNumber
    email := c.email
    phone := c.phone
    street := c.address.street
    city := c.address.city
    zipcode := c.address.zipcode
    createdBy := c.createdBy
    updatedBy := c.updatedBy
    createdAt := c.createdAt
    updatedAt := c.updatedAt
    deleted := c.deleted
    deletedAt := none }

/-- The `model.LoanApplication` value assembled by
`CreateLoanApplicationDraft` (`dbLoanApp` in db.go), embedding the customer
and carrying status `DRAFT`. -/
def mkDbLoanApp (customerIn : CustomerInput) (loanIn : ProposedLoanInput)
    (collateralIn : CollateralInput) (customerUUID loanUUID createdBy : String)
    (now : Nat) : LoanApplication :=
  let dbCustomer := mkDbCustomer customerIn customerUUID createdBy now
  { id := loanUUID
    customerId := dbCustomer.id
    status := "DRAFT"
    proposedLoan := { tenure := loanIn.tenure, amount := loanIn.amount }
    collateral :=
      { category := collateralIn.category
        brand := collateralIn.brand
        variant := collateralIn.variant
        manufacturingYear := collateralIn.manufacturingYear
        isDocumentComplete := collateralIn.isDocumentComplete }
    createdBy := createdBy
    updatedBy := createdBy
    createdAt := now
    updatedAt := now
    deleted := false
    deletedAt := none
    customerData := dbCustomer }

/-- The `loans` row written by the second `INSERT` of
`CreateLoanApplicationDraft` (the columns of its `VALUES` list). -/
def loanRowOf (app : LoanApplication) : LoanRow :=
  { id := app.id
    customerId := app.customerId
    tenure := app.proposedLoan.tenure
    amount := app.proposedLoan.amount
    loanStatus := app.status
    collateralCategory := app.collateral.category
    collateralBrand := app.collateral.brand
    collateralVariant := app.collateral.variant
    collateralManufacturingYear := app.collateral.manufacturingYear
    collateralIsDocumentComplete := app.collateral.isDocumentComplete
    createdBy := app.createdBy
    updatedBy := app.updatedBy
    createdAt := app.createdAt
    updatedAt := app.updatedAt
    deleted := app.deleted
    deletedAt := none }

/-- Constraint check of `INSERT INTO customers`: the primary key on `id`
and the `UNIQUE` constraint on `id_number` declared by the migration. -/
def customerInsertConflict (σ : DBState) (row : CustomerRow) : Bool :=
  σ.customers.any (fun c => c.id == row.id || c.idNumber == row.idNumber)

/-- `INSERT INTO customers` executed inside the transaction: a constraint
violation is a storage-engine error, otherwise the row is appended. -/
def insertCustomer (σ : DBState) (row : CustomerRow) : Except String DBState :=
  if customerInsertConflict σ row then
    .error "duplicate key value violates unique constraint"
  else .ok { σ with customers := σ.customers ++ [row] }

/-- Constraint check of `INSERT INTO loans`: primary key on `id`, foreign
key `customer_id REFERENCES customers(id)`, and the
`collateral_categories` enum column. -/
def loanInsertConflict (σ : DBState) (row : LoanRow) : Option String :=
  if σ.loans.any (fun l => l.id == row.id) then
    some "duplicate key value violates unique constraint"
  else if ¬ σ.customers.any (fun c => c.id == row.customerId) then
    some "insert or update on table loans violates foreign key constraint"
  else if ¬ (row.collateralCategory == "CAR"
      || row.collateralCategory == "MOTORCYCLE") then
    some "invalid input value for enum collateral_categories"
  else none

/-- `INSERT INTO loans` executed inside the transaction. -/
def insertLoan (σ : DBState) (row : LoanRow) : Except String DBState :=
  match loanInsertConflict σ row with
  | some e => .error e
  | none => .ok { σ with loans := σ.loans ++ [row] }

/-- External storage faults that each step of the create transaction may
hit (`none` = the call reaches the storage engine and is governed by the
modelled constraints alone). -/
structure CreateEnv where
  beginFault : Option String
  exec1Fault : Option String
  exec2Fault : Option String
  commitFault : Option String
  deriving DecidableEq, Repr

/-- The fault-free environment. -/
def noFaults : CreateEnv := ⟨none, none, none, none⟩

/-- `(s *DBService) CreateLoanApplicationDraft` of db.go: a single
transaction inserting the customer row then the loan row (status `DRAFT`);
on any failure the deferred rollback leaves the state unchanged, on commit
both rows are durable and the composed application is returned. -/
def CreateLoanApplicationDraft (env : CreateEnv) (σ : DBState)
    (customerIn : CustomerInput) (loanIn : ProposedLoanInput)
    (collateralIn : CollateralInput) (createdBy : String)
    (customerUUID loanUUID : String) (now : Nat) :
    Except String LoanApplication × DBState :=
  match env.beginFault with
  | some e => (.error ("failed to begin transaction: " ++ e), σ)
  | none =>
    match (match env.exec1Fault with
           | some e => Except.error e
           | none => insertCustomer σ
               (customerRowOf (mkDbCustomer customerIn customerUUID createdBy now))) with
    | .error e => (.error ("failed to insert customer: " ++ e), σ)
    | .ok σ1 =>
      match (match env.exec2Fault with
             | some e => Except.error e
             | none => insertLoan σ1
                 (loanRowOf (mkDbLoanApp customerIn loanIn collateralIn
                   customerUUID loanUUID createdBy now))) with
      | .error e => (.error ("failed to insert loan: " ++ e), σ)
      | .ok σ2 =>
        match env.commitFault with
        | some e => (.error ("failed to commit transaction: " ++ e), σ)
        | none =>
          (.ok (mkDbLoanApp customerIn loanIn collateralIn customerUUID
            loanUUID createdBy now), σ2)

/-- `WHERE l.id = $1 AND l.deleted = FALSE` of `GetLoanApplication`. -/
def getMatches (loanUUID : String) (l : LoanRow) : Bool :=
  l.id == loanUUID && l.deleted == false

/-- The composed application produced by the `Scan` of
`GetLoanApplication`: loan columns into the application, customer columns
into its embedded `CustomerData`. -/
def composeLoanApplication (l : LoanRow) (c : CustomerRow) : LoanApplication :=
  { id := l.id
    customerId := l.customerId
    status := l.loanStatus
    proposedLoan := { tenure := l.tenure, amount := l.amount }
    collateral :=
      { category := l.collateralCategory
        brand := l.collateralBrand
        variant := l.collateralVariant
        manufacturingYear := l.collateralManufacturingYear
        isDocumentComplete := l.collateralIsDocumentComplete }
    createdBy := l.createdBy
    updatedBy := l.updatedBy
    createdAt := l.createdAt
    updatedAt := l.updatedAt
    deleted := l.deleted
    deletedAt := l.deletedAt
    customerData :=
      { id := c.id
        fullName := c.fullName
        dateOfBirth := c.dateOfBirth
        idNumber := c.idNumber
        email := c.email
        phone := c.phone
        address := { street := c.street, city := c.city, zipcode := c.zipcode }
        createdBy := c.createdBy
        updatedBy := c.updatedBy
        createdAt := c.createdAt
        updatedAt := c.updatedAt
        deleted := c.deleted
        deletedAt := c.deletedAt } }

/-- Columns of the `loans` table, as created by the migration. -/
def loansTableColumns : List String :=
  ["id", "customer_id", "tenure", "amount", "loan_status",
   "collateral_category", "collateral_brand", "collateral_variant",
   "collateral_manufacturing_year", "collateral_is_document_complete",
   "created_at", "updated_at", "created_by", "updated_by", "deleted",
   "deleted_at"]

/-- Columns of the `customers` table, as created by the migration. -/
def customersTableColumns : List String :=
  ["id", "full_name", "date_of_birth", "id_number", "email", "phone",
   "address_street", "address_city", "address_zipcode", "created_at",
   "updated_at", "created_by", "updated_by", "deleted", "deleted_at"]

/-- The `l.*` column names referenced by the `SELECT` of
`GetLoanApplication`, in source order.  Note the second entry: the query
selects `l.status`, while the table column (written by this very file's
`INSERT` and `UPDATE` statements) is named `loan_status`. -/
def getSelectLoanColumns : List String :=
  ["id", "status", "tenure", "amount", "collateral_category",
   "collateral_brand", "collateral_variant",
   "collateral_manufacturing_year", "collateral_is_document_complete",
   "created_at", "updated_at", "created_by", "updated_by", "deleted",
   "deleted_at", "customer_id"]

/-- The `c.*` column names referenced by the same `SELECT` (all of these
exist in the `customers` table). -/
def getSelectCustomerColumns : List String :=
  ["id", "full_name", "date_of_birth", "id_number", "email", "phone",
   "address_street", "address_city", "address_zipcode", "created_at",
   "updated_at", "created_by", "updated_by", "deleted", "deleted_at"]

/-- The selected `l.*` columns that do not exist in the `loans` table.
Postgres rejects the whole query with error 42703 (undefined column) as
soon as this list is non-empty.  Here it evaluates to `["status"]`. -/
def getUndefinedLoanColumns : List String :=
  getSelectLoanColumns.filter (fun c => ¬ loansTableColumns.contains c)

/-- The selected `c.*` columns that do not exist in the `customers` table
(this list is empty). -/
def getUndefinedCustomerColumns : List String :=
  getSelectCustomerColumns.filter (fun c => ¬ customersTableColumns.contains c)

/-- The pgx v5 rendering of the Postgres undefined-column error raised for
a column reference `tbl.c` that does not resolve. -/
def undefinedColumnMsg (tbl c : String) : String :=
  "ERROR: column " ++ tbl ++ "." ++ c ++ " does not exist (SQLSTATE 42703)"

/-- `(s *DBService) GetLoanApplication` of db.go: one `SELECT ... JOIN`
filtered to non-deleted loans; `pgx.ErrNoRows` (no matching loan, or no
joined customer) would be returned as `nil, nil`, i.e. `.ok none`.
The query's column references are resolved against the migration's schema
first: the `SELECT` names `l.status`, but the `loans` table — per the
migration and this same function's own `INSERT`/`UPDATE` statements — only
has `loan_status`, so the storage engine rejects the query with an
undefined-column error before reading any row.  The row-reading branch
below is therefore unreachable while this schema stands; it models what
the query would read if its columns resolved. -/
def GetLoanApplication (fault : Option String) (σ : DBState)
    (loanUUID : String) : Except String (Option LoanApplication) :=
  match fault with
  | some e => .error ("failed to query loan application: " ++ e)
  | none =>
    match getUndefinedLoanColumns with
    | c :: _ => .error ("failed to query loan application: "
        ++ undefinedColumnMsg "l" c)
    | [] =>
      match getUndefinedCustomerColumns with
      | c :: _ => .error ("failed to query loan application: "
          ++ undefinedColumnMsg "c" c)
      | [] =>
        match σ.loans.find? (getMatches loanUUID) with
        | none => .ok none
        | some l =>
          match σ.customers.find? (fun c => c.id == l.customerId) with
          | none => .ok none
          | some c => .ok (some (composeLoanApplication l c))

/-- `WHERE id = $3 AND loan_status = 'DRAFT' AND deleted = FALSE` of
`SubmitLoanApplication`. -/
def submitMatches (loanUUID : String) (l : LoanRow) : Bool :=
  l.id == loanUUID && l.loanStatus == "DRAFT" && l.deleted == false

/-- `SET loan_status = 'SUBMITTED', updated_at = NOW(), updated_by = $2`. -/
def submitUpdate (updatedBy : String) (now : Nat) (l : LoanRow) : LoanRow :=
  { l with loanStatus := "SUBMITTED", updatedAt := now, updatedBy := updatedBy }

/-- `(s *DBService) SubmitLoanApplication` of db.go: a single conditional
`UPDATE`; the result is `RowsAffected() > 0`. -/
def SubmitLoanApplication (fault : Option String) (σ : DBState)
    (loanUUID updatedBy : String) (now : Nat) : Except String Bool × DBState :=
  match fault with
  | some e =>
    (.error ("failed to update loan application to submitted: " ++ e), σ)
  | none =>
    (.ok (decide (0 < σ.loans.countP (submitMatches loanUUID))),
      { σ with loans := σ.loans.map (fun l =>
          if submitMatches loanUUID l then submitUpdate updatedBy now l
          else l) })

/-- `WHERE id = $3 AND deleted = FALSE` of `CancelLoanApplication`. -/
def cancelMatches (loanUUID : String) (l : LoanRow) : Bool :=
  l.id == loanUUID && l.deleted == false

/-- `SET loan_status = 'CANCELLED', updated_at = NOW(), updated_by = $2,
deleted = TRUE, deleted_at = NOW()`. -/
def cancelUpdate (updatedBy : String) (now : Nat) (l : LoanRow) : LoanRow :=
  { l with loanStatus := "CANCELLED", updatedAt := now,
           updatedBy := updatedBy, deleted := true, deletedAt := some now }

/-- `(s *DBService) CancelLoanApplication` of db.go: a single conditional
`UPDATE` doing the soft delete; the result is `RowsAffected() > 0`. -/
def CancelLoanApplication (fault : Option String) (σ : DBState)
    (loanUUID updatedBy : String) (now : Nat) : Except String Bool × DBState :=
  match fault with
  | some e => (.error ("failed to cancel loan application: " ++ e), σ)
  | none =>
    (.ok (decide (0 < σ.loans.countP (cancelMatches loanUUID))),
      { σ with loans := σ.loans.map (fun l =>
          if cancelMatches loanUUID l then cancelUpdate updatedBy now l
          else l) })

/-! ## Resolver methods (graphqlhandler/resolvers.go)

A resolver returns `(interface{}, error)`; we model it as a value paired
with an optional error message, together with the resulting storage state.
-/

/-- The actor name hardcoded by the resolver methods. -/
def systemUser : String := "system_user_resolver"

/-- Extraction of the typed `model.CustomerInput` from the validated raw
section (the type assertions after validation in
`CreateLoanApplicationDraft`; the email defaults to the empty string when
absent). -/
def customerInputOfRaw (c : CustomerRaw) : CustomerInput :=
  let addr := c.address.getD { street := none, city := none, zipcode := none }
  { fullName := c.fullName.getD ""
    dateOfBirth := c.dateOfBirth.getD ""
    idNumber := c.idNumber.getD ""
    email := c.email.getD ""
    phone := c.phone.getD ""
    address :=
      { street := addr.street.getD ""
        city := addr.city.getD ""
        zipcode := addr.zipcode.getD "" } }

/-- Extraction of the typed `model.ProposedLoanInput`. -/
def proposedLoanInputOfRaw (p : ProposedLoanRaw) : ProposedLoanInput :=
  { tenure := p.tenure.getD 0, amount := p.amount.getD 0 }

/-- Extraction of the typed `model.CollateralInput`. -/
def collateralInputOfRaw (c : CollateralRaw) : CollateralInput :=
  { category := c.category.getD ""
    brand := c.brand.getD ""
    variant := c.variant.getD ""
    manufacturingYear := c.manufacturingYear.getD 0
    isDocumentComplete := c.isDocumentComplete.getD false }

/-- `(r *Resolver) CreateLoanApplicationDraft` of resolvers.go: validate
the three sections (proposed loan, then collateral, then customer), and
only then call the gateway; the mutation returns the new application id. -/
def ResolverCreateLoanApplicationDraft (env : CreateEnv) (σ : DBState)
    (data : Option RawData) (customerUUID loanUUID : String) (now : Nat)
    (currentYear : Int) : (Option String × Option String) × DBState :=
  match data with
  | none => ((none, some "missing \x27data\x27 argument"), σ)
  | some raw =>
    match validateProposedLoanInput raw.proposedLoan with
    | .error e => ((none, some ("invalid proposed_loan: " ++ e)), σ)
    | .ok _ =>
      match validateCollateralInput currentYear raw.collateral with
      | .error e => ((none, some ("invalid collateral: " ++ e)), σ)
      | .ok _ =>
        match validateCustomerInput raw.customer with
        | .error e => ((none, some ("invalid customer: " ++ e)), σ)
        | .ok _ =>
          match CreateLoanApplicationDraft env σ
              (customerInputOfRaw raw.customer)
              (proposedLoanInputOfRaw raw.proposedLoan)
              (collateralInputOfRaw raw.collateral)
              systemUser customerUUID loanUUID now with
          | (.error e, σ') =>
            ((none,
              some ("failed to create loan application draft in DB: " ++ e)),
              σ')
          | (.ok createdLoanApp, σ') => ((some createdLoanApp.id, none), σ')

/-- `(r *Resolver) GetLoanApplication` of resolvers.go: pass the gateway
result through; a `nil` application is returned as `nil, nil`. -/
def ResolverGetLoanApplication (fault : Option String) (σ : DBState)
    (uuidArg : String) : Option LoanApplication × Option String :=
  match GetLoanApplication fault σ uuidArg with
  | .error e => (none, some ("failed to get loan application from DB: " ++ e))
  | .ok none => (none, none)
  | .ok (some loanApp) => (some loanApp, none)

/-- Ineligibility message of the submit resolver. -/
def submitIneligibleMsg (uuidArg : String) : String :=
  "loan application with UUID \x27" ++ uuidArg
    ++ "\x27 not found, not in DRAFT state, or already deleted"

/-- `(r *Resolver) SubmitLoanApplication` of resolvers.go: a gateway error
is wrapped; a `false` gateway result is returned as the value `false`
paired with the ineligibility message. -/
def ResolverSubmitLoanApplication (fault : Option String) (σ : DBState)
    (uuidArg : String) (now : Nat) :
    (Option Bool × Option String) × DBState :=
  match SubmitLoanApplication fault σ uuidArg systemUser now with
  | (.error e, σ') =>
    ((none, some ("failed to submit loan application in DB: " ++ e)), σ')
  | (.ok success, σ') =>
    if success then ((some true, none), σ')
    else ((some false, some (submitIneligibleMsg uuidArg)), σ')

/-- Ineligibility message of the cancel resolver. -/
def cancelIneligibleMsg (uuidArg : String) : String :=
  "loan application with UUID \x27" ++ uuidArg
    ++ "\x27 not found or already deleted"

/-- `(r *Resolver) CancelLoanApplication` of resolvers.go. -/
def ResolverCancelLoanApplication (fault : Option String) (σ : DBState)
    (uuidArg : String) (now : Nat) :
    (Option Bool × Option String) × DBState :=
  match CancelLoanApplication fault σ uuidArg systemUser now with
  | (.error e, σ') =>
    ((none, some ("failed to cancel loan application in DB: " ++ e)), σ')
  | (.ok success, σ') =>
    if success then ((some true, none), σ')
    else ((some false, some (cancelIneligibleMsg uuidArg)), σ')

/-! ## Operation sequences over the store -/

/-- One storage-touching lifecycle operation together with its external
inputs (generated identifiers, clock values, fault injections). -/
inductive LoanOp where
  | create (env : CreateEnv) (customerIn : CustomerInput)
      (loanIn : ProposedLoanInput) (collateralIn : CollateralInput)
      (createdBy customerUUID loanUUID : String) (now : Nat)
  | submit (fault : Option String) (loanUUID updatedBy : String) (now : Nat)
  | cancel (fault : Option String) (loanUUID updatedBy : String) (now : Nat)
  deriving Repr

/-- Effect of one operation on the stored state. -/
def applyOp (σ : DBState) : LoanOp → DBState
  | .create env cin lin col cb cu lu now =>
    (CreateLoanApplicationDraft env σ cin lin col cb cu lu now).2
  | .submit fault lu ub now => (SubmitLoanApplication fault σ lu ub now).2
  | .cancel fault lu ub now => (CancelLoanApplication fault σ lu ub now).2

/-- Effect of a sequence of operations on the stored state. -/
def runOps (σ : DBState) (ops : List LoanOp) : DBState :=
  ops.foldl applyOp σ

/-- Primary-key well-formedness of the loans table: rows are determined by
their `id`. -/
def UniqueLoanIds (L : List LoanRow) : Prop :=
  ∀ l1 ∈ L, ∀ l2 ∈ L, l1.id = l2.id → l1 = l2

/-- Primary-key well-formedness of the customers table. -/
def UniqueCustomerIds (L : List CustomerRow) : Prop :=
  ∀ c1 ∈ L, ∀ c2 ∈ L, c1.id = c2.id → c1 = c2

instance (L : List LoanRow) : Decidable (UniqueLoanIds L) := by
  unfold UniqueLoanIds; infer_instance

instance (L : List CustomerRow) : Decidable (UniqueCustomerIds L) := by
  unfold UniqueCustomerIds; infer_instance

/-! ## Helper lemmas -/

/-- Case split on a run of the create transaction: either everything
succeeded — both rows are appended, the loan id was fresh, and the composed
application is returned — or some step failed and the state is unchanged
(the deferred rollback). -/
theorem createDraft_state_cases (env : CreateEnv) (σ : DBState)
    (cin : CustomerInput) (lin : ProposedLoanInput) (col : CollateralInput)
    (cb cu lu : String) (now : Nat) :
    (CreateLoanApplicationDraft env σ cin lin col cb cu lu now
        = (.ok (mkDbLoanApp cin lin col cu lu cb now),
           { customers :=
               σ.customers ++ [customerRowOf (mkDbCustomer cin cu cb now)],
             loans :=
               σ.loans ++ [loanRowOf (mkDbLoanApp cin lin col cu lu cb now)] })
      ∧ σ.loans.any (fun l => l.id == lu) = false)
    ∨ ∃ e, CreateLoanApplicationDraft env σ cin lin col cb cu lu now
        = (.error e, σ) := by
  obtain ⟨bf, e1, e2, cf⟩ := env
  unfold CreateLoanApplicationDraft
  cases bf with
  | some e => exact Or.inr ⟨_, rfl⟩
  | none =>
    cases e1 with
    | some e => exact Or.inr ⟨_, rfl⟩
    | none =>
      by_cases h1 : customerInsertConflict σ
          (customerRowOf (mkDbCustomer cin cu cb now)) = true
      · rw [insertCustomer, if_pos h1]
        exact Or.inr ⟨_, rfl⟩
      · rw [insertCustomer, if_neg h1]
        cases e2 with
        | some e => exact Or.inr ⟨_, rfl⟩
        | none =>
          cases h2 : loanInsertConflict
              { σ with customers :=
                  σ.customers ++ [customerRowOf (mkDbCustomer cin cu cb now)] }
              (loanRowOf (mkDbLoanApp cin lin col cu lu cb now)) with
          | some e =>
            simp only [insertLoan]
            rw [h2]
            exact Or.inr ⟨_, rfl⟩
          | none =>
            simp only [insertLoan]
            rw [h2]
            cases cf with
            | some e => exact Or.inr ⟨_, rfl⟩
            | none =>
              refine Or.inl ⟨rfl, ?_⟩
              cases hany : σ.loans.any (fun l => l.id == lu) with
              | false => rfl
              | true =>
                exfalso
                simp only [loanInsertConflict, loanRowOf, mkDbLoanApp] at h2
                rw [if_pos hany] at h2
                cases h2

/-! ## Claim C5 — creation is atomic -/

/-- C5: for every input and every combination of storage outcomes,
`CreateLoanApplicationDraft` either persists both the applicant row and the
loan-application row (returning the composed application) or fails leaving
the stored state exactly as it was — including when the second insert or
the commit fails after the first insert succeeded.  No state with one row
but not the other is ever the resulting state. -/
theorem createDraft_atomic (env : CreateEnv) (σ : DBState)
    (cin : CustomerInput) (lin : ProposedLoanInput) (col : CollateralInput)
    (cb cu lu : String) (now : Nat) :
    CreateLoanApplicationDraft env σ cin lin col cb cu lu now
        = (.ok (mkDbLoanApp cin lin col cu lu cb now),
           { customers :=
               σ.customers ++ [customerRowOf (mkDbCustomer cin cu cb now)],
             loans :=
               σ.loans ++ [loanRowOf (mkDbLoanApp cin lin col cu lu cb now)] })
    ∨ ∃ e, CreateLoanApplicationDraft env σ cin lin col cb cu lu now
        = (.error e, σ) := by
  rcases createDraft_state_cases env σ cin lin col cb cu lu now with ⟨h, _⟩ | h
  · exact Or.inl h
  · exact Or.inr h

/-! ## Claim C2 — invalid input is rejected before persistence -/

/-- C2: when any of the three sections fails its validator (the sections
are checked in the order proposed loan, collateral, customer), the create
resolver returns no value and an error message starting with the offending
section name (`proposed_loan`, `collateral` or `customer`) and the
validator cause, and the stored state is returned unchanged — the
persistence gateway is never reached, so no applicant row and no
loan-application row is persisted. -/
theorem createDraft_invalid_rejected_no_persist (env : CreateEnv)
    (σ : DBState) (raw : RawData) (cu lu : String) (now : Nat)
    (currentYear : Int) :
    (∀ e, validateProposedLoanInput raw.proposedLoan = .error e →
      ResolverCreateLoanApplicationDraft env σ (some raw) cu lu now
          currentYear
        = ((none, some ("invalid proposed_loan: " ++ e)), σ))
    ∧ (∀ e, validateProposedLoanInput raw.proposedLoan = .ok () →
        validateCollateralInput currentYear raw.collateral = .error e →
        ResolverCreateLoanApplicationDraft env σ (some raw) cu lu now
            currentYear
          = ((none, some ("invalid collateral: " ++ e)), σ))
    ∧ (∀ e, validateProposedLoanInput raw.proposedLoan = .ok () →
        validateCollateralInput currentYear raw.collateral = .ok () →
        validateCustomerInput raw.customer = .error e →
        ResolverCreateLoanApplicationDraft env σ (some raw) cu lu now
            currentYear
          = ((none, some ("invalid customer: " ++ e)), σ)) := by
  refine ⟨fun e he => ?_, fun e h1 he => ?_, fun e h1 h2 he => ?_⟩
  · simp only [ResolverCreateLoanApplicationDraft, he]
  · simp only [ResolverCreateLoanApplicationDraft, h1, he]
  · simp only [ResolverCreateLoanApplicationDraft, h1, h2, he]

/-! ## Claim C1 — valid input creates a DRAFT embedding the submitted values -/

/-- The raw `data` map a client submits for the given typed values: every
key present and of the asserted dynamic type. -/
def rawOfInputs (cin : CustomerInput) (col : CollateralInput)
    (lin : ProposedLoanInput) : RawData :=
  { proposedLoan := { tenure := some lin.tenure, amount := some lin.amount }
    collateral :=
      { category := some col.category
        brand := some col.brand
        variant := some col.variant
        manufacturingYear := some col.manufacturingYear
        isDocumentComplete := some col.isDocumentComplete }
    customer :=
      { fullName := some cin.fullName
        dateOfBirth := some cin.dateOfBirth
        idNumber := some cin.idNumber
        email := some cin.email
        phone := some cin.phone
        address := some
          { street := some cin.address.street
            city := some cin.address.city
            zipcode := some cin.address.zipcode } } }

/-- C1: for every submitted triple whose fields pass the three validators
(the §3 ranges) and which the storage engine accepts (fresh generated
identifiers, no id-number conflict, a legal collateral category enum
value), the create mutation succeeds, returning the new application id,
and the application built and persisted by the gateway has status `DRAFT`
and embeds exactly the submitted customer, collateral, and proposed-loan
values. -/
theorem createDraft_valid_succeeds_embeds (σ : DBState)
    (cin : CustomerInput) (lin : ProposedLoanInput) (col : CollateralInput)
    (cu lu : String) (now : Nat) (currentYear : Int)
    (hv1 : validateProposedLoanInput
      (rawOfInputs cin col lin).proposedLoan = .ok ())
    (hv2 : validateCollateralInput currentYear
      (rawOfInputs cin col lin).collateral = .ok ())
    (hv3 : validateCustomerInput (rawOfInputs cin col lin).customer = .ok ())
    (hs1 : customerInsertConflict σ
      (customerRowOf (mkDbCustomer cin cu systemUser now)) = false)
    (hs2 : σ.loans.any (fun l => l.id == lu) = false)
    (hs3 : (col.category == "CAR" || col.category == "MOTORCYCLE") = true) :
    ResolverCreateLoanApplicationDraft noFaults σ
        (some (rawOfInputs cin col lin)) cu lu now currentYear
      = ((some lu, none),
         { customers :=
             σ.customers ++ [customerRowOf (mkDbCustomer cin cu systemUser now)],
           loans :=
             σ.loans
               ++ [loanRowOf (mkDbLoanApp cin lin col cu lu systemUser now)] })
    ∧ CreateLoanApplicationDraft noFaults σ cin lin col systemUser cu lu now
      = (.ok (mkDbLoanApp cin lin col cu lu systemUser now),
         { customers :=
             σ.customers ++ [customerRowOf (mkDbCustomer cin cu systemUser now)],
           loans :=
             σ.loans
               ++ [loanRowOf (mkDbLoanApp cin lin col cu lu systemUser now)] })
    ∧ (mkDbLoanApp cin lin col cu lu systemUser now).status = "DRAFT"
    ∧ (mkDbLoanApp cin lin col cu lu systemUser now).proposedLoan
        = { tenure := lin.tenure, amount := lin.amount }
    ∧ (mkDbLoanApp cin lin col cu lu systemUser now).collateral
        = { category := col.category, brand := col.brand,
            variant := col.variant,
            manufacturingYear := col.manufacturingYear,
            isDocumentComplete := col.isDocumentComplete }
    ∧ (mkDbLoanApp cin lin col cu lu systemUser now).customerData.fullName
        = cin.fullName
    ∧ (mkDbLoanApp cin lin col cu lu systemUser now).customerData.dateOfBirth
        = cin.dateOfBirth
    ∧ (mkDbLoanApp cin lin col cu lu systemUser now).customerData.idNumber
        = cin.idNumber
    ∧ (mkDbLoanApp cin lin col cu lu systemUser now).customerData.email
        = cin.email
    ∧ (mkDbLoanApp cin lin col cu lu systemUser now).customerData.phone
        = cin.phone
    ∧ (mkDbLoanApp cin lin col cu lu systemUser now).customerData.address
        = cin.address := by
  have hdb : CreateLoanApplicationDraft noFaults σ cin lin col systemUser
      cu lu now
      = (.ok (mkDbLoanApp cin lin col cu lu systemUser now),
         { customers :=
             σ.customers ++ [customerRowOf (mkDbCustomer cin cu systemUser now)],
           loans :=
             σ.loans
               ++ [loanRowOf (mkDbLoanApp cin lin col cu lu systemUser now)] }) := by
    show (match insertCustomer σ
        (customerRowOf (mkDbCustomer cin cu systemUser now)) with
      | .error e => (Except.error ("failed to insert customer: " ++ e), σ)
      | .ok σ1 => _) = _
    rw [insertCustomer, if_neg (by simp [hs1])]
    show (match insertLoan _
        (loanRowOf (mkDbLoanApp cin lin col cu lu systemUser now)) with
      | .error e => (Except.error ("failed to insert loan: " ++ e), σ)
      | .ok σ2 => _) = _
    have hconf : loanInsertConflict
        { σ with customers :=
            σ.customers ++ [customerRowOf (mkDbCustomer cin cu systemUser now)] }
        (loanRowOf (mkDbLoanApp cin lin col cu lu systemUser now)) = none := by
      rw [loanInsertConflict]
      rw [if_neg (by simp [loanRowOf, mkDbLoanApp, hs2])]
      rw [if_neg (by
        simp [loanRowOf, mkDbLoanApp, mkDbCustomer, customerRowOf,
          List.any_append])]
      rw [if_neg (by simp [loanRowOf, mkDbLoanApp, hs3])]
    rw [insertLoan, hconf]
    rfl
  refine ⟨?_, hdb, rfl, rfl, rfl, rfl, rfl, rfl, rfl, rfl, rfl⟩
  show (match validateProposedLoanInput (rawOfInputs cin col lin).proposedLoan
      with
    | .error e => ((none, some ("invalid proposed_loan: " ++ e)),
        σ)
    | .ok _ => _) = _
  rw [hv1]
  show (match validateCollateralInput currentYear
      (rawOfInputs cin col lin).collateral with
    | .error e => ((none, some ("invalid collateral: " ++ e)), σ)
    | .ok _ => _) = _
  rw [hv2]
  show (match validateCustomerInput (rawOfInputs cin col lin).customer with
    | .error e => ((none, some ("invalid customer: " ++ e)), σ)
    | .ok _ => _) = _
  rw [hv3]
  show (match CreateLoanApplicationDraft noFaults σ cin lin col systemUser
      cu lu now with
    | (.error e, σ') =>
      ((none, some ("failed to create loan application draft in DB: " ++ e)),
        σ')
    | (.ok createdLoanApp, σ') => ((some createdLoanApp.id, none), σ')) = _
  rw [hdb]
  rfl

/-! ## Concrete fixtures used by the closed instances below -/

/-- A stored `loans` row in status `DRAFT`, not soft-deleted. -/
def sampleLoanRow : LoanRow :=
  { id := "L1", customerId := "C1", tenure := 12, amount := 5000,
    loanStatus := "DRAFT", collateralCategory := "CAR",
    collateralBrand := "Toyota", collateralVariant := "Avanza",
    collateralManufacturingYear := 2021, collateralIsDocumentComplete := true,
    createdBy := "u", updatedBy := "u", createdAt := 0, updatedAt := 0,
    deleted := false, deletedAt := none }

/-- The applicant row referenced by `sampleLoanRow`. -/
def sampleCustomerRow : CustomerRow :=
  { id := "C1", fullName := "John Doe", dateOfBirth := "1990-01-15",
    idNumber := "ID12345", email := "john@example.com",
    phone := "1234567890", street := "Main St", city := "Springfield",
    zipcode := "12345", createdBy := "u", updatedBy := "u", createdAt := 0,
    updatedAt := 0, deleted := false, deletedAt := none }

/-- A stored state with one applicant and one `DRAFT` application. -/
def sampleState : DBState :=
  { customers := [sampleCustomerRow], loans := [sampleLoanRow] }

/-- The sample application after submission. -/
def sampleLoanRowSubmitted : LoanRow :=
  { sampleLoanRow with loanStatus := "SUBMITTED" }

/-- A stored state holding one live `SUBMITTED` application. -/
def sampleStateSubmitted : DBState :=
  { customers := [sampleCustomerRow], loans := [sampleLoanRowSubmitted] }

/-- The sample application after cancellation (terminal, soft-deleted). -/
def sampleLoanRowCancelled : LoanRow :=
  { sampleLoanRow with loanStatus := "CANCELLED", deleted := true,
                       deletedAt := some 3, updatedAt := 3 }

/-- A stored state holding one cancelled, soft-deleted application. -/
def sampleStateCancelled : DBState :=
  { customers := [sampleCustomerRow], loans := [sampleLoanRowCancelled] }

/-! ## Claim C10 — after a cancel, get never shows the application (code bug) -/

/-- C10 (code bug): the cancel does soft-delete every row with the id, and
the read does filter to `deleted = FALSE`, but a subsequent
`GetLoanApplication` never returns the claimed absent result: the query is
rejected by the storage engine with the undefined-column error for
`l.status` on every call, so the caller receives a wrapped storage error —
neither `nil` ("not found") nor an application with status `CANCELLED`. -/
theorem cancel_then_get_errors (σ : DBState) (id actor : String) (now : Nat)
    (h : (CancelLoanApplication none σ id actor now).1 = .ok true) :
    (∀ l' ∈ (CancelLoanApplication none σ id actor now).2.loans,
      l'.id = id → l'.deleted = true)
    ∧ GetLoanApplication none (CancelLoanApplication none σ id actor now).2 id
      = .error ("failed to query loan application: "
          ++ undefinedColumnMsg "l" "status")
    ∧ ResolverGetLoanApplication none
        (CancelLoanApplication none σ id actor now).2 id
      = (none, some ("failed to get loan application from DB: "
          ++ ("failed to query loan application: "
            ++ undefinedColumnMsg "l" "status"))) := by
  refine ⟨?_, rfl, rfl⟩
  intro l' hl' hid'
  have hl2 : l' ∈ σ.loans.map (fun l =>
      if cancelMatches id l then cancelUpdate actor now l else l) := hl'
  rcases List.mem_map.mp hl2 with ⟨b, hb, rfl⟩
  by_cases hm : cancelMatches id b = true
  · rw [if_pos hm]
    rfl
  · rw [if_neg hm] at hid' ⊢
    simp only [cancelMatches, Bool.and_eq_true, beq_iff_eq] at hm
    cases hd : b.deleted with
    | true => rfl
    | false => exact absurd ⟨hid', hd⟩ hm

/-- Closed instance of `cancel_then_get_errors`: cancelling the sample
`DRAFT` application succeeds and soft-deletes its row, yet the follow-up
read fails with the undefined-column storage error. -/
theorem cancel_then_get_errors_witness :
    (cancelUpdate "u" 3 sampleLoanRow).deleted = true
    ∧ GetLoanApplication none
        (CancelLoanApplication none sampleState "L1" "u" 3).2 "L1"
      = .error ("failed to query loan application: "
          ++ undefinedColumnMsg "l" "status") :=
  have h := cancel_then_get_errors sampleState "L1" "u" 3 rfl
  ⟨h.1 (cancelUpdate "u" 3 sampleLoanRow) (by decide) rfl, h.2.1⟩

/-! ## Claim C9 — ineligible transitions reported as false, not faults -/

/-- C9: when the target of a submit is absent, already terminal
(`SUBMITTED`/`CANCELLED`), or otherwise not a live `DRAFT` row — i.e.
whenever no row satisfies the submit `WHERE` clause — the submit resolver
reports the boolean value `false` together with its specific
ineligibility message; likewise the cancel resolver when its target is
absent or already soft-deleted.  A storage fault instead yields no value
and a wrapped storage error, so callers can distinguish an ineligible
request from a storage fault. -/
theorem ineligible_reported_as_false (σ : DBState) (id : String)
    (now : Nat) :
    ((∀ l ∈ σ.loans, l.id = id →
        ¬(l.loanStatus = "DRAFT" ∧ l.deleted = false)) →
      (ResolverSubmitLoanApplication none σ id now).1
        = (some false, some (submitIneligibleMsg id)))
    ∧ ((∀ l ∈ σ.loans, l.id = id → l.deleted = true) →
      (ResolverCancelLoanApplication none σ id now).1
        = (some false, some (cancelIneligibleMsg id)))
    ∧ (∀ e, (ResolverSubmitLoanApplication (some e) σ id now).1
        = (none, some ("failed to submit loan application in DB: "
            ++ ("failed to update loan application to submitted: " ++ e))))
    ∧ (∀ e, (ResolverCancelLoanApplication (some e) σ id now).1
        = (none, some ("failed to cancel loan application in DB: "
            ++ ("failed to cancel loan application: " ++ e)))) := by
  refine ⟨fun hsub => ?_, fun hcan => ?_, fun e => rfl, fun e => rfl⟩
  · have hc1 : σ.loans.countP (submitMatches id) = 0 := by
      apply List.countP_eq_zero.mpr
      intro l hl
      simp only [submitMatches, Bool.and_eq_true, beq_iff_eq, not_and,
        and_imp]
      intro h1 h2 h3
      exact hsub l hl h1 ⟨h2, h3⟩
    simp only [ResolverSubmitLoanApplication, SubmitLoanApplication, hc1]
    rfl
  · have hc2 : σ.loans.countP (cancelMatches id) = 0 := by
      apply List.countP_eq_zero.mpr
      intro l hl
      simp only [cancelMatches, Bool.and_eq_true, beq_iff_eq, not_and]
      intro h1 h2
      rw [hcan l hl h1] at h2
      cases h2
    simp only [ResolverCancelLoanApplication, CancelLoanApplication, hc2]
    rfl

/-- Closed instance of `ineligible_reported_as_false`, covering the
claimed ineligibility cases: submit on a live already-`SUBMITTED`
application (terminal / not in the required source state), cancel on an
already-cancelled soft-deleted application, and submit on an absent id —
each reports `false` with the specific ineligibility message. -/
theorem ineligible_reported_as_false_witness :
    (ResolverSubmitLoanApplication none sampleStateSubmitted "L1" 0).1
        = (some false, some (submitIneligibleMsg "L1"))
    ∧ (ResolverCancelLoanApplication none sampleStateCancelled "L1" 0).1
        = (some false, some (cancelIneligibleMsg "L1"))
    ∧ (ResolverSubmitLoanApplication none ⟨[], []⟩ "missing" 0).1
        = (some false, some (submitIneligibleMsg "missing")) :=
  ⟨(ineligible_reported_as_false sampleStateSubmitted "L1" 0).1
      (by decide),
    (ineligible_reported_as_false sampleStateCancelled "L1" 0).2.1
      (by decide),
    (ineligible_reported_as_false ⟨[], []⟩ "missing" 0).1 (by decide)⟩

/-! ## Claim C4 — cancel is NOT idempotent in this code -/

/-- C4 counterexample: on a stored `DRAFT` application, the first
`cancelLoanApplication` call returns `true`, but the second call on the
same id returns the value `false` together with a "not found or already
deleted" error — not `true` — because the first call soft-deleted the row
and the conditional update only matches `deleted = FALSE` rows.  This
refutes the claim that a second cancel is a no-op success. -/
theorem cancel_not_idempotent_cex :
    (ResolverCancelLoanApplication none sampleState "L1" 1).1
        = (some true, none)
    ∧ (ResolverCancelLoanApplication none
        (ResolverCancelLoanApplication none sampleState "L1" 1).2 "L1" 2).1
      = (some false, some (cancelIneligibleMsg "L1"))
    ∧ ¬ (ResolverCancelLoanApplication none
        (ResolverCancelLoanApplication none sampleState "L1" 1).2 "L1" 2).1
      = (some true, none) :=
  ⟨rfl, rfl, by decide⟩

/-- C4 (amended): after a `cancelApplication` call has returned `true` for
an id, a second call on the same id returns the value `false` paired with
the "not found or already deleted" error message — the conditional update
matches no row since every row with that id is now soft-deleted. -/
theorem cancel_second_call_returns_false (σ : DBState) (id : String)
    (now1 now2 : Nat)
    (h : (ResolverCancelLoanApplication none σ id now1).1.1 = some true) :
    (ResolverCancelLoanApplication none
        (ResolverCancelLoanApplication none σ id now1).2 id now2).1
      = (some false, some (cancelIneligibleMsg id)) := by
  have h2 : (ResolverCancelLoanApplication none σ id now1).2
      = { σ with loans := σ.loans.map (fun l =>
          if cancelMatches id l then cancelUpdate systemUser now1 l
          else l) } := by
    simp only [ResolverCancelLoanApplication, CancelLoanApplication]
    split <;> rfl
  rw [h2]
  have hcnt : (σ.loans.map (fun l =>
      if cancelMatches id l then cancelUpdate systemUser now1 l
      else l)).countP (cancelMatches id) = 0 := by
    apply List.countP_eq_zero.mpr
    intro l' hl'
    rcases List.mem_map.mp hl' with ⟨b, hb, rfl⟩
    by_cases hm : cancelMatches id b = true
    · rw [if_pos hm]
      simp [cancelMatches, cancelUpdate]
    · rw [if_neg hm]
      exact hm
  simp only [ResolverCancelLoanApplication, CancelLoanApplication, hcnt]
  rfl

/-- Closed instance of `cancel_second_call_returns_false` at the sample
state. -/
theorem cancel_second_call_returns_false_witness :
    (ResolverCancelLoanApplication none
        (ResolverCancelLoanApplication none sampleState "L1" 5).2 "L1" 6).1
      = (some false, some (cancelIneligibleMsg "L1")) :=
  cancel_second_call_returns_false sampleState "L1" 5 6 (by decide)

/-! ## Claim C6 — cancelling a live application soft-deletes it -/

/-- C6: for every stored, non-deleted application in status `DRAFT` or
`SUBMITTED`, `CancelLoanApplication` returns `true`; afterwards the row
with that id has status `CANCELLED`, its soft-delete flag set, and its
deleted-at/updated-at/updated-by fields refreshed, while the customers
table is left entirely unchanged. -/
theorem cancelLoanApplication_spec (σ : DBState) (id actor : String)
    (now : Nat) (hwf : UniqueLoanIds σ.loans) (l : LoanRow)
    (hl : l ∈ σ.loans) (hid : l.id = id) (hdel : l.deleted = false)
    (hst : l.loanStatus = "DRAFT" ∨ l.loanStatus = "SUBMITTED") :
    (CancelLoanApplication none σ id actor now).1 = .ok true
    ∧ (CancelLoanApplication none σ id actor now).2.customers = σ.customers
    ∧ ∀ l' ∈ (CancelLoanApplication none σ id actor now).2.loans,
        l'.id = id →
          l'.loanStatus = "CANCELLED" ∧ l'.deleted = true
          ∧ l'.deletedAt = some now ∧ l'.updatedAt = now
          ∧ l'.updatedBy = actor := by
  have hpos : 0 < σ.loans.countP (cancelMatches id) :=
    List.countP_pos_iff.mpr ⟨l, hl, by simp [cancelMatches, hid, hdel]⟩
  refine ⟨by simp [CancelLoanApplication, hpos], rfl, ?_⟩
  intro l' hl' hid'
  have hl2 : l' ∈ σ.loans.map (fun b =>
      if cancelMatches id b then cancelUpdate actor now b else b) := hl'
  rcases List.mem_map.mp hl2 with ⟨b, hb, rfl⟩
  by_cases hm : cancelMatches id b = true
  · rw [if_pos hm]
    simp [cancelUpdate]
  · exfalso
    rw [if_neg hm] at hid'
    have hbl : b = l := hwf b hb l hl (hid'.trans hid.symm)
    subst hbl
    exact hm (by simp [cancelMatches, hid', hdel])

/-- Closed instance of `cancelLoanApplication_spec` at the sample state. -/
theorem cancelLoanApplication_spec_witness :
    (CancelLoanApplication none sampleState "L1" "u" 9).1 = .ok true
    ∧ (CancelLoanApplication none sampleState "L1" "u" 9).2.customers
        = sampleState.customers
    ∧ (cancelUpdate "u" 9 sampleLoanRow).loanStatus = "CANCELLED"
    ∧ (cancelUpdate "u" 9 sampleLoanRow).deleted = true
    ∧ (cancelUpdate "u" 9 sampleLoanRow).deletedAt = some 9 :=
  have h := cancelLoanApplication_spec sampleState "L1" "u" 9 (by decide)
    sampleLoanRow (by decide) rfl rfl (Or.inl rfl)
  have h3 := h.2.2 (cancelUpdate "u" 9 sampleLoanRow) (by decide) rfl
  ⟨h.1, h.2.1, h3.1, h3.2.1, h3.2.2.1⟩

/-! ## Claim C7 — get always fails on the undefined column (code bug) -/

/-- C7 (code bug): `GetLoanApplication` is meant to be one read joining
the loan with its applicant, filtered to non-deleted loans, returning an
explicit absent result (`nil`, not an error) when nothing matches — but
its `SELECT` references the column `l.status`, which the `loans` table
does not have (the migration, and this very function's own
`INSERT`/`UPDATE` statements, name it `loan_status`).  The storage engine
therefore rejects the query with an undefined-column error on every call,
for every stored state and every id: the function always returns a
wrapped storage error and never the absent result or the composed view. -/
theorem getLoanApplication_always_errors (σ : DBState) (id : String) :
    GetLoanApplication none σ id
      = .error ("failed to query loan application: "
          ++ undefinedColumnMsg "l" "status")
    ∧ ResolverGetLoanApplication none σ id
      = (none, some ("failed to get loan application from DB: "
          ++ ("failed to query loan application: "
            ++ undefinedColumnMsg "l" "status")))
    ∧ "status" ∈ getSelectLoanColumns
    ∧ "status" ∉ loansTableColumns
    ∧ "loan_status" ∈ loansTableColumns :=
  ⟨rfl, rfl, by decide, by decide, by decide⟩

/-! ## Claim C3 — submit succeeds exactly on live DRAFT applications,
but the follow-up get fails (code bug) -/

/-- C3 (code bug in its get clause): `SubmitLoanApplication` returns
`true` exactly when a stored, non-deleted application with the given id is
in status `DRAFT`; on a `SUBMITTED` or `CANCELLED` application it returns
`false`; after a successful submit the stored row has status `SUBMITTED`
and refreshed updated-at/updated-by fields and is still not deleted — yet
the claimed "subsequent `getApplication` shows status SUBMITTED" does not
hold: the get always fails with the undefined-column storage error for
`l.status`, so the submitted application is never observable through it. -/
theorem submitLoanApplication_spec (σ : DBState) (id actor : String)
    (now : Nat) (hwf : UniqueLoanIds σ.loans) :
    ((SubmitLoanApplication none σ id actor now).1 = .ok true
      ↔ ∃ l ∈ σ.loans, l.id = id ∧ l.loanStatus = "DRAFT"
          ∧ l.deleted = false)
    ∧ (∀ l ∈ σ.loans, l.id = id →
        l.loanStatus = "SUBMITTED" ∨ l.loanStatus = "CANCELLED" →
        (SubmitLoanApplication none σ id actor now).1 = .ok false)
    ∧ (∀ l ∈ σ.loans, l.id = id → l.loanStatus = "DRAFT" →
        l.deleted = false →
        ∀ l' ∈ (SubmitLoanApplication none σ id actor now).2.loans,
          l'.id = id →
            l'.loanStatus = "SUBMITTED" ∧ l'.updatedAt = now
            ∧ l'.updatedBy = actor ∧ l'.deleted = false)
    ∧ GetLoanApplication none (SubmitLoanApplication none σ id actor now).2
        id
      = .error ("failed to query loan application: "
          ++ undefinedColumnMsg "l" "status") := by
  refine ⟨⟨fun h => ?_, fun h => ?_⟩, fun l hl hid hterm => ?_,
    fun l hl hid hdraft hdel l' hl' hid' => ?_, rfl⟩
  · simp only [SubmitLoanApplication, Except.ok.injEq,
      decide_eq_true_eq] at h
    rcases List.countP_pos_iff.mp h with ⟨l, hl, hp⟩
    simp only [submitMatches, Bool.and_eq_true, beq_iff_eq] at hp
    exact ⟨l, hl, hp.1.1, hp.1.2, hp.2⟩
  · rcases h with ⟨l, hl, h1, h2, h3⟩
    have hpos : 0 < σ.loans.countP (submitMatches id) :=
      List.countP_pos_iff.mpr ⟨l, hl, by simp [submitMatches, h1, h2, h3]⟩
    simp [SubmitLoanApplication, hpos]
  · have hcnt : σ.loans.countP (submitMatches id) = 0 := by
      apply List.countP_eq_zero.mpr
      intro b hb hbp
      simp only [submitMatches, Bool.and_eq_true, beq_iff_eq] at hbp
      obtain ⟨⟨hb1, hb2⟩, hb3⟩ := hbp
      have hbl : b = l := hwf b hb l hl (hb1.trans hid.symm)
      rw [hbl] at hb2
      rcases hterm with h | h <;> rw [h] at hb2 <;>
        exact absurd hb2 (by decide)
    simp [SubmitLoanApplication, hcnt]
  · have hl2 : l' ∈ σ.loans.map (fun b =>
        if submitMatches id b then submitUpdate actor now b else b) := hl'
    rcases List.mem_map.mp hl2 with ⟨b, hb, rfl⟩
    by_cases hm : submitMatches id b = true
    · rw [if_pos hm]
      have hbdel : b.deleted = false := by
        simp only [submitMatches, Bool.and_eq_true, beq_iff_eq] at hm
        exact hm.2
      exact ⟨rfl, rfl, rfl, hbdel⟩
    · exfalso
      rw [if_neg hm] at hid'
      have hbl : b = l := hwf b hb l hl (hid'.trans hid.symm)
      rw [hbl] at hm
      exact hm (by simp [submitMatches, hid, hdraft, hdel])

/-- Closed instance of `submitLoanApplication_spec` at the sample state:
submit returns `true`, the stored row becomes `SUBMITTED`, and the
follow-up read fails with the undefined-column storage error. -/
theorem submitLoanApplication_spec_witness :
    (SubmitLoanApplication none sampleState "L1" "u" 5).1 = .ok true
    ∧ (submitUpdate "u" 5 sampleLoanRow).loanStatus = "SUBMITTED"
    ∧ (submitUpdate "u" 5 sampleLoanRow).updatedAt = 5
    ∧ GetLoanApplication none
        (SubmitLoanApplication none sampleState "L1" "u" 5).2 "L1"
      = .error ("failed to query loan application: "
          ++ undefinedColumnMsg "l" "status") :=
  have h := submitLoanApplication_spec sampleState "L1" "u" 5 (by decide)
  have h3 := h.2.2.1 sampleLoanRow (by decide) rfl rfl rfl
    (submitUpdate "u" 5 sampleLoanRow) (by decide) rfl
  ⟨h.1.mpr ⟨sampleLoanRow, by decide, rfl, rfl, rfl⟩, h3.1, h3.2.1,
    h.2.2.2⟩

/-! ## Claim C8 — status transitions never return to DRAFT -/

/-- Invariant: some row with the id exists and every row with the id has a
status other than `DRAFT`. -/
def IdNonDraft (i : String) (σ : DBState) : Prop :=
  (∃ l ∈ σ.loans, l.id = i)
  ∧ ∀ l ∈ σ.loans, l.id = i → l.loanStatus ≠ "DRAFT"

/-- Every lifecycle operation preserves `IdNonDraft`: create only inserts
a fresh id (the primary key rejects an existing one), submit only updates
rows currently in `DRAFT`, and cancel moves rows to `CANCELLED`. -/
theorem applyOp_preserves_idNonDraft (i : String) (σ : DBState)
    (op : LoanOp) (h : IdNonDraft i σ) : IdNonDraft i (applyOp σ op) := by
  obtain ⟨⟨l0, hl0, hl0i⟩, hall⟩ := h
  cases op with
  | create env cin lin col cb cu lu now =>
    rcases createDraft_state_cases env σ cin lin col cb cu lu now with
      ⟨heq, hfresh⟩ | ⟨e, heq⟩
    · show IdNonDraft i (CreateLoanApplicationDraft env σ cin lin col cb
        cu lu now).2
      rw [heq]
      refine ⟨⟨l0, List.mem_append_left _ hl0, hl0i⟩, ?_⟩
      intro l' hl' hid'
      rcases List.mem_append.mp hl' with h' | h'
      · exact hall l' h' hid'
      · exfalso
        rcases List.mem_singleton.mp h' with rfl
        have hlu : (loanRowOf
            (mkDbLoanApp cin lin col cu lu cb now)).id = lu := rfl
        rw [hlu] at hid'
        have hany : σ.loans.any (fun l => l.id == lu) = true :=
          List.any_eq_true.mpr ⟨l0, hl0,
            by rw [beq_iff_eq, hl0i, ← hid']⟩
        rw [hfresh] at hany
        cases hany
    · show IdNonDraft i (CreateLoanApplicationDraft env σ cin lin col cb
        cu lu now).2
      rw [heq]
      exact ⟨⟨l0, hl0, hl0i⟩, hall⟩
  | submit fault lu ub now =>
    cases fault with
    | some e => exact ⟨⟨l0, hl0, hl0i⟩, hall⟩
    | none =>
      constructor
      · refine ⟨(fun b => if submitMatches lu b then submitUpdate ub now b
          else b) l0, List.mem_map_of_mem _ hl0, ?_⟩
        by_cases hm : submitMatches lu l0 = true
        · show ((if submitMatches lu l0 then submitUpdate ub now l0
            else l0)).id = i
          rw [if_pos hm]
          exact hl0i
        · show ((if submitMatches lu l0 then submitUpdate ub now l0
            else l0)).id = i
          rw [if_neg hm]
          exact hl0i
      · intro l' hl' hid'
        have hl2 : l' ∈ σ.loans.map (fun b =>
            if submitMatches lu b then submitUpdate ub now b else b) := hl'
        rcases List.mem_map.mp hl2 with ⟨b, hb, rfl⟩
        by_cases hm : submitMatches lu b = true
        · rw [if_pos hm]
          exact (by decide : ("SUBMITTED" : String) ≠ "DRAFT")
        · rw [if_neg hm]
          rw [if_neg hm] at hid'
          exact hall b hb hid'
  | cancel fault lu ub now =>
    cases fault with
    | some e => exact ⟨⟨l0, hl0, hl0i⟩, hall⟩
    | none =>
      constructor
      · refine ⟨(fun b => if cancelMatches lu b then cancelUpdate ub now b
          else b) l0, List.mem_map_of_mem _ hl0, ?_⟩
        by_cases hm : cancelMatches lu l0 = true
        · show ((if cancelMatches lu l0 then cancelUpdate ub now l0
            else l0)).id = i
          rw [if_pos hm]
          exact hl0i
        · show ((if cancelMatches lu l0 then cancelUpdate ub now l0
            else l0)).id = i
          rw [if_neg hm]
          exact hl0i
      · intro l' hl' hid'
        have hl2 : l' ∈ σ.loans.map (fun b =>
            if cancelMatches lu b then cancelUpdate ub now b else b) := hl'
        rcases List.mem_map.mp hl2 with ⟨b, hb, rfl⟩
        by_cases hm : cancelMatches lu b = true
        · rw [if_pos hm]
          exact (by decide : ("CANCELLED" : String) ≠ "DRAFT")
        · rw [if_neg hm]
          rw [if_neg hm] at hid'
          exact hall b hb hid'

/-- `IdNonDraft` is preserved along any operation sequence. -/
theorem runOps_preserves_idNonDraft (i : String) (σ : DBState)
    (ops : List LoanOp) (h : IdNonDraft i σ) :
    IdNonDraft i (runOps σ ops) := by
  induction ops generalizing σ with
  | nil => exact h
  | cons op ops ih => exact ih _ (applyOp_preserves_idNonDraft i σ op h)

/-- C8: status transitions are monotone with no path back to `DRAFT`: in
every state reachable by any sequence of create/submit/cancel operations
from a well-formed state, an application whose status has become
`SUBMITTED` or `CANCELLED` never has status `DRAFT` again. -/
theorem no_path_back_to_draft (σ : DBState) (ops : List LoanOp)
    (l : LoanRow) (hwf : UniqueLoanIds σ.loans) (hl : l ∈ σ.loans)
    (hst : l.loanStatus = "SUBMITTED" ∨ l.loanStatus = "CANCELLED") :
    ∀ l' ∈ (runOps σ ops).loans, l'.id = l.id → l'.loanStatus ≠ "DRAFT" := by
  have h0 : IdNonDraft l.id σ := by
    refine ⟨⟨l, hl, rfl⟩, ?_⟩
    intro b hb hbid
    have hbl : b = l := hwf b hb l hl hbid
    rw [hbl]
    rcases hst with h | h <;> rw [h] <;> decide
  exact (runOps_preserves_idNonDraft l.id σ ops h0).2

/-- Closed instance of `no_path_back_to_draft`: after cancelling the
submitted sample application, its row is not back in `DRAFT`. -/
theorem no_path_back_to_draft_witness :
    (cancelUpdate "u" 4 sampleLoanRowSubmitted).loanStatus ≠ "DRAFT" :=
  no_path_back_to_draft sampleStateSubmitted
    [LoanOp.cancel none "L1" "u" 4] sampleLoanRowSubmitted (by decide)
    (by decide) (Or.inl rfl) (cancelUpdate "u" 4 sampleLoanRowSubmitted)
    (by decide) rfl

/-! ## Typed input fixtures and remaining closed instances -/

/-- A customer section satisfying every §3 range. -/
def sampleCustomerInput : CustomerInput :=
  { fullName := "John Doe", dateOfBirth := "1990-01-15",
    idNumber := "ID12345", email := "john@example.com",
    phone := "1234567890",
    address := { street := "Main St", city := "Springfield",
                 zipcode := "12345" } }

/-- A proposed loan satisfying every §3 range. -/
def sampleProposedLoanInput : ProposedLoanInput :=
  { tenure := 12, amount := 5000 }

/-- A collateral section satisfying every §3 range. -/
def sampleCollateralInput : CollateralInput :=
  { category := "CAR", brand := "Toyota", variant := "Avanza",
    manufacturingYear := 2021, isDocumentComplete := true }

/-- Closed instance of `createDraft_valid_succeeds_embeds` on the empty
store: the mutation returns the generated application id, both rows are
persisted, and the composed application has status `DRAFT`. -/
theorem createDraft_valid_succeeds_embeds_witness :
    ResolverCreateLoanApplicationDraft noFaults ⟨[], []⟩
        (some (rawOfInputs sampleCustomerInput sampleCollateralInput
          sampleProposedLoanInput)) "CU" "LU" 7 2025
      = ((some "LU", none),
         { customers :=
             [] ++ [customerRowOf (mkDbCustomer sampleCustomerInput "CU"
               systemUser 7)],
           loans :=
             [] ++ [loanRowOf (mkDbLoanApp sampleCustomerInput
               sampleProposedLoanInput sampleCollateralInput "CU" "LU"
               systemUser 7)] })
    ∧ (mkDbLoanApp sampleCustomerInput sampleProposedLoanInput
        sampleCollateralInput "CU" "LU" systemUser 7).status = "DRAFT"
    ∧ (mkDbLoanApp sampleCustomerInput sampleProposedLoanInput
        sampleCollateralInput "CU" "LU" systemUser 7).customerData.fullName
      = sampleCustomerInput.fullName :=
  have h := createDraft_valid_succeeds_embeds ⟨[], []⟩ sampleCustomerInput
    sampleProposedLoanInput sampleCollateralInput "CU" "LU" 7 2025
    rfl rfl rfl rfl rfl rfl
  ⟨h.1, h.2.2.1, h.2.2.2.2.2.1⟩

/-- Closed instance of `createDraft_invalid_rejected_no_persist`: a tenure
of 13 (not divisible by 3) is rejected with a `proposed_loan` validation
error and the stored state is unchanged. -/
theorem createDraft_invalid_rejected_no_persist_witness :
    ResolverCreateLoanApplicationDraft noFaults sampleState
        (some (rawOfInputs sampleCustomerInput sampleCollateralInput
          { tenure := 13, amount := 5000 })) "CU" "LU" 0 2025
      = ((none, some ("invalid proposed_loan: "
          ++ "tenure must be between 3 and 60, and divisible by 3")),
         sampleState) :=
  (createDraft_invalid_rejected_no_persist noFaults sampleState
    (rawOfInputs sampleCustomerInput sampleCollateralInput
      { tenure := 13, amount := 5000 }) "CU" "LU" 0 2025).1
    "tenure must be between 3 and 60, and divisible by 3" rfl

end LoanGraphql
